import Mathlib

/-!
Verification development for the Risk & Volatility Analytics Engine of the
stock-analyst-app repository.  The Python sources embedded here are
`agents/risk_agent.py` (the RiskAgent class) and
`mcp_servers/db_server.py` (the MCPDatabaseServer class).

Modelling conventions:
* prices and returns are exact rationals (`ℚ`); quantities that the source
  obtains through `sqrt` (volatility, standard deviation, Sharpe ratio,
  portfolio volatility) live in `ℝ`;
* pandas `pct_change()` produces IEEE-754 special values when the previous
  close is zero; these are modelled by the `PFloat` type below, because
  `dropna` removes only NaN and keeps infinities;
* trading dates are integers (day numbers), analysis timestamps are integers
  (seconds); the source's `datetime` values carry exactly this information at
  the granularity the code inspects (calendar days for price freshness,
  one hour = 3600 seconds for the analysis cache);
* network calls (`yfinance`, the MCP HTTP hop) are modelled as explicit
  parameters holding the data the call would have produced.
-/

/-- Value classes of a pandas float column as produced by `pct_change()`:
a finite value, `+inf`, `-inf`, or `NaN`.  `dropna` removes only `nan`. -/
inductive PFloat where
  | val (q : ℚ)
  | inf
  | neginf
  | nan
deriving DecidableEq, Repr

/-- A date-indexed series of rational values, the model of a pandas
`Series` indexed by trading date. -/
abbrev DSeries := List (ℤ × ℚ)

/-- NaN test used by `dropna`. -/
def PFloat.isNaN : PFloat → Bool
  | PFloat.nan => true
  | _ => false

/-- One step of `Series.pct_change()`: `(cur - prev) / prev` with IEEE-754
semantics when `prev = 0` (`x/0 = ±inf` for `x ≠ 0`, `0/0 = NaN`). -/
def pctStep (prev cur : ℚ) : PFloat :=
  if prev ≠ 0 then PFloat.val ((cur - prev) / prev)
  else if cur - prev > 0 then PFloat.inf
  else if cur - prev < 0 then PFloat.neginf
  else PFloat.nan

/-- Embeds `df['close'].pct_change().dropna()` (risk_agent.py line 83-84 and
db_server.py line 416-417): consecutive-close percentage changes indexed by
the later bar's date; the leading `NaN` of `pct_change` is represented by
producing nothing for the first bar, and `dropna` removes the `NaN`s arising
from `0/0` while keeping infinities. -/
def pctChangeDropna (s : DSeries) : List (ℤ × PFloat) :=
  ((s.zip s.tail).map (fun pc => (pc.2.1, pctStep pc.1.2 pc.2.2))).filter
    (fun e => !(PFloat.isNaN e.2))

/-- The rational payload of a finite float, `none` on the special values. -/
def PFloat.toRat : PFloat → Option ℚ
  | PFloat.val q => some q
  | _ => none

/-- The finite (date, value) pairs of a float series. -/
def finiteSeries (l : List (ℤ × PFloat)) : DSeries :=
  l.filterMap (fun e => (PFloat.toRat e.2).map (fun q => (e.1, q)))

/-- The finite values of a float series, dates dropped. -/
def finiteVals (l : List (ℤ × PFloat)) : List ℚ :=
  l.filterMap (fun e => PFloat.toRat e.2)

/-- Arithmetic mean, `Series.mean()` / `np.mean`; the empty list yields `0/0 = 0`
(standing in for the source's NaN, which no modelled claim inspects). -/
def listMean (l : List ℚ) : ℚ := l.sum / (l.length : ℚ)

/-- Population variance `np.var` (ddof = 0). -/
def popVar (l : List ℚ) : ℚ :=
  ((l.map (fun x => (x - listMean l) ^ 2)).sum) / (l.length : ℚ)

/-- Sample variance with ddof = 1 (`Series.std() ** 2`, `np.cov` diagonal);
division by `n - 1` is rational division, which returns `0` for `n ≤ 1`
(standing in for the source's NaN, which no modelled claim inspects). -/
def sampleVar (l : List ℚ) : ℚ :=
  ((l.map (fun x => (x - listMean l) ^ 2)).sum) / ((l.length : ℚ) - 1)

/-- Sample covariance `np.cov(xs, ys)[0][1]` (ddof = 1). -/
def sampleCov (xs ys : List ℚ) : ℚ :=
  (((xs.zip ys).map (fun p => (p.1 - listMean xs) * (p.2 - listMean ys))).sum) /
    ((xs.length : ℚ) - 1)

/-- Linear-interpolated percentile, `np.percentile(l, p)`. -/
def percentile (l : List ℚ) (p : ℚ) : ℚ :=
  let s := List.insertionSort (· ≤ ·) l
  let n := s.length
  if n = 0 then 0
  else
    let rank : ℚ := p / 100 * ((n : ℚ) - 1)
    let lo : ℕ := (⌊rank⌋).toNat
    let frac : ℚ := rank - (lo : ℚ)
    match s.get? lo, s.get? (lo + 1) with
    | some a, some b => a + frac * (b - a)
    | some a, none => a
    | _, _ => 0

/-- Maximum drawdown (risk_agent.py lines 160-163, db_server.py lines 434-438):
cumulative product of `1 + r`, expanding maximum, most negative value of
`(cumulative - runmax) / runmax`. -/
def maxDrawdown (rs : List ℚ) : ℚ :=
  let cum := ((rs.scanl (fun a r => a * (1 + r)) 1).drop 1)
  match cum with
  | [] => 0
  | c :: t =>
    (t.foldl (fun st x =>
      let m := max st.1 x
      (m, min st.2 ((x - m) / m))) (c, (c - c) / c)).2

/-- Embeds `MCPDatabaseServer._classify_risk` (db_server.py lines 480-523):
a 0-9 risk score accumulated from volatility, max-drawdown and VaR-95
thresholds, then bucketed into five labels.  Generic over the ordered field
because the source applies it to floats that this model represents in `ℝ`
(volatility) and `ℚ` (drawdown, VaR). -/
def classify_risk {α : Type} [LinearOrderedField α]
    (volatility max_drawdown var_95 : α) : String :=
  let s0 : ℕ := 0
  let s1 : ℕ := s0 +
    (if volatility > 40/100 then 3
     else if volatility > 25/100 then 2
     else if volatility > 15/100 then 1 else 0)
  let s2 : ℕ := s1 +
    (if max_drawdown < -(30/100) then 3
     else if max_drawdown < -(20/100) then 2
     else if max_drawdown < -(10/100) then 1 else 0)
  let s3 : ℕ := s2 +
    (if var_95 < -(5/100) then 3
     else if var_95 < -(3/100) then 2
     else if var_95 < -(2/100) then 1 else 0)
  if s3 ≥ 7 then "Very High"
  else if s3 ≥ 5 then "High"
  else if s3 ≥ 3 then "Medium"
  else if s3 ≥ 1 then "Low"
  else "Very Low"

/-- Embeds `RiskAgent._classify_risk_level` (risk_agent.py lines 240-280):
counts of high-risk and medium-risk indicator hits against two tiers of
thresholds, bucketed into HIGH / MEDIUM / LOW. -/
def classify_risk_level {α : Type} [LinearOrderedField α]
    (volatility max_drawdown var_95 : α) : String :=
  let high_vol_threshold : α := 3/10
  let high_drawdown_threshold : α := -(2/10)
  let high_var_threshold : α := -(3/100)
  let medium_vol_threshold : α := 2/10
  let medium_drawdown_threshold : α := -(1/10)
  let medium_var_threshold : α := -(2/100)
  let high_risk_count : ℕ :=
    (if volatility > high_vol_threshold then 1 else 0) +
    (if max_drawdown < high_drawdown_threshold then 1 else 0) +
    (if var_95 < high_var_threshold then 1 else 0)
  let medium_risk_count : ℕ :=
    (if medium_vol_threshold < volatility ∧ volatility ≤ high_vol_threshold then 1 else 0) +
    (if medium_drawdown_threshold < max_drawdown ∧ max_drawdown ≤ high_drawdown_threshold then 1 else 0) +
    (if medium_var_threshold < var_95 ∧ var_95 ≤ high_var_threshold then 1 else 0)
  if high_risk_count ≥ 2 then "HIGH"
  else if high_risk_count ≥ 1 ∨ medium_risk_count ≥ 2 then "MEDIUM"
  else "LOW"

/-- Volatility sub-score of the specification's fixed 0-9 scoring
(spec section 4.4): thresholds > 0.40 / 0.25 / 0.15 give 3 / 2 / 1. -/
def specVolSubscore {α : Type} [LinearOrderedField α] (v : α) : ℕ :=
  if v > 40/100 then 3 else if v > 25/100 then 2 else if v > 15/100 then 1 else 0

/-- Max-drawdown sub-score of the specification's fixed 0-9 scoring:
thresholds < -0.30 / -0.20 / -0.10 give 3 / 2 / 1. -/
def specDrawdownSubscore {α : Type} [LinearOrderedField α] (d : α) : ℕ :=
  if d < -(30/100) then 3 else if d < -(20/100) then 2 else if d < -(10/100) then 1 else 0

/-- VaR-95 sub-score of the specification's fixed 0-9 scoring:
thresholds < -0.05 / -0.03 / -0.02 give 3 / 2 / 1. -/
def specVarSubscore {α : Type} [LinearOrderedField α] (r : α) : ℕ :=
  if r < -(5/100) then 3 else if r < -(3/100) then 2 else if r < -(2/100) then 1 else 0

/-- The specification's risk-level classification, written from the spec's
words (section 4.4): the three independent sub-scores are summed to a 0-9
total, and the total is bucketed at 7 / 5 / 3 / 1. -/
def specRiskClassification {α : Type} [LinearOrderedField α]
    (volatility max_drawdown var_95 : α) : String :=
  let total := specVolSubscore volatility + specDrawdownSubscore max_drawdown +
    specVarSubscore var_95
  if total ≥ 7 then "Very High"
  else if total ≥ 5 then "High"
  else if total ≥ 3 then "Medium"
  else if total ≥ 1 then "Low"
  else "Very Low"

/-- Looks up the value stored at a date, `series.loc[d]` on a unique date
index (first match, mirroring the unique (symbol, date) constraint). -/
def lookupDate (d : ℤ) (ys : DSeries) : Option ℚ :=
  (ys.find? (fun y => y.1 == d)).map (fun y => y.2)

/-- Date alignment of two series (risk_agent.py lines 217-224):
`common_dates = stock.index.intersection(bench.index)` followed by `.loc`;
each pair holds (stock value, benchmark value) for one common date. -/
def alignByDate (xs ys : DSeries) : List (ℚ × ℚ) :=
  xs.filterMap (fun x => (lookupDate x.1 ys).map (fun v => (x.2, v)))

/-- Embeds `RiskAgent._calculate_beta` (risk_agent.py lines 205-238).
The NIFTY history that the source fetches over the network is the
`nifty_hist` parameter; its return series is derived by the same
`pct_change().dropna()` used everywhere else (non-finite benchmark returns,
which only arise from a zero benchmark close, are dropped here whereas the
source would propagate IEEE infinities into `np.cov`, producing NaN).
Covariance is `np.cov` (ddof = 1), market variance is `np.var` (ddof = 0),
exactly as in the source. -/
def calculate_beta (stock_returns : DSeries) (nifty_hist : DSeries) : Option ℚ :=
  if nifty_hist = [] then none
  else
    let nifty_returns := finiteSeries (pctChangeDropna nifty_hist)
    let aligned := alignByDate stock_returns nifty_returns
    if aligned.length < 10 then none
    else
      let covariance := sampleCov (aligned.map (fun p => p.1)) (aligned.map (fun p => p.2))
      let market_variance := popVar (aligned.map (fun p => p.2))
      if market_variance ≠ 0 then some (covariance / market_variance)
      else none

/-- Embeds `MCPDatabaseServer._calculate_beta_simplified` (db_server.py lines
464-478): `0.7 * (returns.std() * sqrt(252) / 0.20)`.  No benchmark series is
consulted and no absence branch exists outside the exception handler, so the
result is always present. -/
noncomputable def calculate_beta_simplified (returns : List ℚ) : Option ℝ :=
  some ((7/10) * ((Real.sqrt (sampleVar returns) * Real.sqrt 252) / (20/100)))

/-- RiskMetricsRecord produced by `MCPDatabaseServer._calculate_risk_metrics`
(db_server.py lines 446-458).  The source stores plain floats; fields that the
source obtains through `sqrt` are `ℝ` here, the rest are exact rationals. -/
structure DbRiskRecord where
  volatility : ℝ
  annualized_return : ℚ
  sharpe : ℝ
  var_95 : ℚ
  var_99 : ℚ
  max_drawdown : ℚ
  beta : Option ℝ
  risk_level : String
  data_points : ℕ
  last_price : ℚ
  price_change : ℚ

/-- Embeds `MCPDatabaseServer._calculate_risk_metrics` (db_server.py lines
412-462).  Takes the (date, close) series of the resolved price DataFrame.
Returns the error dict `{"error": "Insufficient data..."}` as `Except.error`
when fewer than 2 returns survive `dropna` — the source's only data gate on
this path.  The numeric fields follow the source formulas; `sharpe_ratio` is
named `sharpe` here.  (The source's float rounding is not modelled; record
fields are exact.) -/
noncomputable def db_calculate_risk_metrics (df : DSeries) : Except String DbRiskRecord :=
  let returnsF := pctChangeDropna df
  if returnsF.length < 2 then Except.error "Insufficient data for risk calculation"
  else
    let returns := finiteVals returnsF
    let volatility : ℝ := Real.sqrt (sampleVar returns) * Real.sqrt 252
    let mean_return : ℚ := listMean returns * 252
    let closes := df.map (fun p => p.2)
    Except.ok
      { volatility := volatility
        annualized_return := mean_return
        sharpe := if volatility > 0 then (((mean_return : ℝ) - 6/100) / volatility) else 0
        var_95 := percentile returns 5
        var_99 := percentile returns 1
        max_drawdown := maxDrawdown returns
        beta := calculate_beta_simplified returns
        risk_level := classify_risk volatility ((maxDrawdown returns : ℚ) : ℝ)
          ((percentile returns 5 : ℚ) : ℝ)
        data_points := returnsF.length
        last_price := closes.getLast?.getD 0
        price_change := if df.length > 1 then
            closes.getLast?.getD 0 - closes.dropLast.getLast?.getD 0
          else 0 }

/-- Largest element of a price column (`prices.max()`); 0 on the empty list,
which the callers never pass. -/
def listMax (l : List ℚ) : ℚ :=
  match l with
  | [] => 0
  | x :: t => t.foldl max x

/-- Smallest element of a price column (`prices.min()`). -/
def listMin (l : List ℚ) : ℚ :=
  match l with
  | [] => 0
  | x :: t => t.foldl min x

/-- RiskMetricsRecord produced by `RiskAgent._compute_risk_metrics`
(risk_agent.py lines 181-199).  `sharpe_ratio` is named `sharpe`.  The
source's round(..., 4) display rounding of binary floats is not modelled;
fields are exact. -/
structure AgentRiskRecord where
  volatility : ℝ
  var_95 : ℚ
  var_99 : ℚ
  cvar_95 : ℚ
  cvar_99 : ℚ
  max_drawdown : ℚ
  sharpe : ℝ
  beta : Option ℚ
  mean_return : ℚ
  std_return : ℝ
  current_price : ℚ
  price_52w_high : ℚ
  price_52w_low : ℚ
  price_position : ℚ
  risk_level : String
  upside_potential : ℚ
  downside_risk : ℚ

/-- Embeds `RiskAgent._compute_risk_metrics` (risk_agent.py lines 141-203):
per-instrument statistics from the (dated) returns series and the close
column.  `nifty_hist` stands for the NIFTY history fetched inside
`_calculate_beta`.  Rational division by zero is total (`x / 0 = 0`) where
the source would raise and be converted to `{}` by the handler; no modelled
claim inspects those fields. -/
noncomputable def compute_risk_metrics (returns : DSeries) (prices : List ℚ)
    (nifty_hist : DSeries) : AgentRiskRecord :=
  let vals := returns.map (fun p => p.2)
  let v95 := percentile vals 5
  let v99 := percentile vals 1
  let std_return : ℝ := Real.sqrt (sampleVar vals)
  let volatility : ℝ := std_return * Real.sqrt 252
  let excess := vals.map (fun r => r - (6/100) / 252)
  let excess_std : ℝ := Real.sqrt (sampleVar excess)
  let current_price := prices.getLast?.getD 0
  let high := listMax prices
  let low := listMin prices
  { volatility := volatility
    var_95 := v95
    var_99 := v99
    cvar_95 := listMean (vals.filter (fun r => r ≤ v95))
    cvar_99 := listMean (vals.filter (fun r => r ≤ v99))
    max_drawdown := maxDrawdown vals
    sharpe := if excess_std ≠ 0 then ((listMean excess : ℚ) : ℝ) / excess_std else 0
    beta := calculate_beta returns nifty_hist
    mean_return := listMean vals
    std_return := std_return
    current_price := current_price
    price_52w_high := high
    price_52w_low := low
    price_position := (current_price - low) / (high - low)
    risk_level := classify_risk_level volatility ((maxDrawdown vals : ℚ) : ℝ) ((v95 : ℚ) : ℝ)
    upside_potential := (high - current_price) / current_price
    downside_risk := (current_price - low) / current_price }

/-- Embeds `RiskAgent._calculate_risk_metrics` (risk_agent.py lines 70-106):
resolve history (here: the `hist` parameter, (date, close) pairs), derive
daily returns, and refuse to compute when fewer than 10 returns are
available.  The metadata keys the source merges into the result dict
(symbol, period, data_points, date range, timestamp) carry no metric content
and are not modelled. -/
noncomputable def agent_calculate_risk_metrics (hist : DSeries) (nifty_hist : DSeries) :
    Option AgentRiskRecord :=
  if hist = [] then none
  else
    let returnsF := pctChangeDropna hist
    if returnsF.length < 10 then none
    else some (compute_risk_metrics (finiteSeries returnsF) (hist.map (fun p => p.2)) nifty_hist)

/-- The return series an individual symbol contributes to the portfolio
covariance matrix (risk_agent.py lines 359-366): close pct-change, dropna,
finite values with their dates. -/
def symbolReturns (h : DSeries) : DSeries := finiteSeries (pctChangeDropna h)

/-- One entry of `returns_df.cov() * 252` (risk_agent.py lines 372-378):
pandas pairwise covariance over the dates where both series have a value
(ddof = 1), annualized. -/
def pairCov (xs ys : DSeries) : ℚ :=
  let common := alignByDate xs ys
  sampleCov (common.map (fun p => p.1)) (common.map (fun p => p.2))

/-- Embeds `RiskAgent._calculate_portfolio_volatility` (risk_agent.py lines
353-391).  `hist` is the per-symbol historical close series the source
fetches (None when unavailable); `returns_data` is a dict keyed by symbol,
modelled by first-occurrence deduplication.  The source requires at least
two resolvable symbols; with fewer it returns None.  A numpy shape mismatch
between the weight vector and the covariance matrix (which happens whenever
some symbol is unresolvable) raises inside the try block and is converted to
None by the handler.  Otherwise the result is
`sqrt(w . (252 * Cov) . w)`. -/
noncomputable def calculate_portfolio_volatility (symbols : List String)
    (weights : List ℚ) (hist : String → Option DSeries) : Option ℝ :=
  let returns_data := symbols.eraseDups.filterMap
    (fun s => (hist s).map (fun h => (s, symbolReturns h)))
  if returns_data.length < 2 then none
  else if returns_data.length ≠ weights.length then none
  else
    let series := returns_data.map (fun p => p.2)
    let sw := series.zip weights
    let portfolio_variance : ℚ :=
      (sw.map (fun a => (sw.map (fun b => a.2 * b.2 * (252 * pairCov a.1 b.1))).sum)).sum
    some (Real.sqrt (portfolio_variance : ℝ))

/-- PortfolioRiskRecord returned by `RiskAgent.analyze_portfolio_risk`
(risk_agent.py lines 337-347).  `weighted_sharpe_ratio` is named
`weighted_sharpe`; the `risk_distribution` dict is the three count fields;
`analysis_timestamp` metadata is not modelled. -/
structure PortfolioRecord where
  portfolio_volatility : Option ℝ
  weighted_beta : ℚ
  weighted_sharpe : ℝ
  portfolio_risk_level : String
  risk_high : ℕ
  risk_medium : ℕ
  risk_low : ℕ
  individual : List (String × AgentRiskRecord)
  symbols : List String
  weights : List ℚ

/-- Embeds `RiskAgent.analyze_portfolio_risk` (risk_agent.py lines 282-351).
The per-symbol risk lookup `analyze_volatility` (a network call followed by a
fallback computation) is the `risk` parameter; `hist` feeds the portfolio
volatility helper.  Every exception inside the source's try block — including
the `ValueError` raised for a weight/symbol count mismatch and the
`ZeroDivisionError` from defaulting weights on an empty symbol list — is
caught by the blanket handler, which returns the empty dict; `none` models
that empty dict.  Python truthiness of `.get('beta')` excludes both absent
and zero betas from the weighted-beta sum. -/
noncomputable def analyze_portfolio_risk (symbols : List String)
    (weightsOpt : Option (List ℚ)) (hist : String → Option DSeries)
    (risk : String → Option AgentRiskRecord) : Option PortfolioRecord :=
  if symbols.length = 0 ∧ weightsOpt = none then none
  else
    let weights := match weightsOpt with
      | none => List.replicate symbols.length (1 / (symbols.length : ℚ))
      | some w => w
    if weights.length ≠ symbols.length then none
    else
      let individual := symbols.eraseDups.filterMap
        (fun s => (risk s).map (fun r => (s, r)))
      if individual.length = 0 then none
      else
        let lookupRisk := fun s => (individual.find? (fun p => p.1 == s)).map (fun p => p.2)
        let weighted_beta : ℚ := ((symbols.zip weights).map (fun sw =>
          match lookupRisk sw.1 with
          | some r => match r.beta with
            | some b => if b ≠ 0 then b * sw.2 else 0
            | none => 0
          | none => 0)).sum
        let weighted_sharpe : ℝ := ((symbols.zip weights).map (fun sw =>
          match lookupRisk sw.1 with
          | some r => r.sharpe * (sw.2 : ℝ)
          | none => 0)).sum
        let risk_levels := symbols.filterMap
          (fun s => (lookupRisk s).map AgentRiskRecord.risk_level)
        let nHigh := (risk_levels.filter (fun l => l == "HIGH")).length
        let nMedium := (risk_levels.filter (fun l => l == "MEDIUM")).length
        let nLow := (risk_levels.filter (fun l => l == "LOW")).length
        some
          { portfolio_volatility :=
              (calculate_portfolio_volatility symbols weights hist).bind
                (fun v => if v = 0 then none else some v)
            weighted_beta := weighted_beta
            weighted_sharpe := weighted_sharpe
            portfolio_risk_level :=
              if (nHigh : ℚ) > (symbols.length : ℚ) * (3/10) then "HIGH"
              else if nHigh > 0 ∨ (nMedium : ℚ) > (symbols.length : ℚ) * (5/10) then "MEDIUM"
              else "LOW"
            risk_high := nHigh
            risk_medium := nMedium
            risk_low := nLow
            individual := individual
            symbols := symbols
            weights := weights }

/-- One row of a yfinance-style OHLCV DataFrame, date-indexed. -/
structure Bar where
  date : ℤ
  Open : ℚ
  High : ℚ
  Low : ℚ
  Close : ℚ
  Volume : ℤ
deriving DecidableEq, Repr

/-- One document of the `historical_prices` collection (db_server.py lines
369-380), unique by (symbol, date). -/
structure PriceDoc where
  symbol : String
  date : ℤ
  open_price : ℚ
  high_price : ℚ
  low_price : ℚ
  close_price : ℚ
  volume : ℤ
deriving DecidableEq, Repr

/-- One document of the `volatility_metrics` collection (db_server.py lines
399-404): the metrics dict (which may itself be the error dict) plus the
symbol, period and storage timestamp. -/
structure StoredAnalysis where
  symbol : String
  period : String
  timestamp : ℤ
  metrics : Except String DbRiskRecord

/-- The MongoDB state the server reads and writes: the two collections
involved in risk analysis. -/
structure DbState where
  prices : List PriceDoc
  analyses : List StoredAnalysis

/-- Mongo document to DataFrame row (db_server.py lines 312-321). -/
def docToBar (d : PriceDoc) : Bar :=
  { date := d.date, Open := d.open_price, High := d.high_price,
    Low := d.low_price, Close := d.close_price, Volume := d.volume }

/-- DataFrame row to Mongo document (db_server.py lines 369-380). -/
def barToDoc (symbol : String) (b : Bar) : PriceDoc :=
  { symbol := symbol, date := b.date, open_price := b.Open, high_price := b.High,
    low_price := b.Low, close_price := b.Close, volume := b.Volume }

/-- The period → day-count map of `_get_data_from_db` (db_server.py lines
296-301), default 30. -/
def periodDays (period : String) : ℤ :=
  if period = "1d" then 1
  else if period = "5d" then 5
  else if period = "1mo" then 30
  else if period = "3mo" then 90
  else if period = "6mo" then 180
  else if period = "1y" then 365
  else if period = "2y" then 730
  else 30

/-- Embeds `MCPDatabaseServer._get_data_from_db` (db_server.py lines
289-333): range read of `historical_prices` by symbol and `date >= now -
days`, sorted ascending by date; returns None when no row matches. -/
def get_data_from_db (prices : List PriceDoc) (symbol period : String) (today : ℤ) :
    Option (List Bar) :=
  let days := periodDays period
  let rows := prices.filter (fun p => p.symbol == symbol && decide (today - days ≤ p.date))
  let sorted := List.insertionSort (fun a b => a.date ≤ b.date) rows
  if sorted = [] then none else some (sorted.map docToBar)

/-- Newest bar date, `df.index.max()`; callers only apply it to non-empty
frames. -/
def maxDate (bars : List Bar) : ℤ :=
  match bars with
  | [] => 0
  | b :: t => t.foldl (fun m x => max m x.date) b.date

/-- Single insert honouring the unique (symbol, date) index: a duplicate-key
conflict is swallowed (insert_many with ordered=False, db_server.py lines
382-390). -/
def insertPriceDoc (prices : List PriceDoc) (d : PriceDoc) : List PriceDoc :=
  if prices.any (fun p => p.symbol == d.symbol && p.date == d.date) then prices
  else prices ++ [d]

/-- Embeds `MCPDatabaseServer._store_price_data_bulk` (db_server.py lines
360-390): bulk append of fetched bars, duplicate (symbol, date) keys
skipped. -/
def store_price_data_bulk (prices : List PriceDoc) (symbol : String) (bars : List Bar) :
    List PriceDoc :=
  bars.foldl (fun ps b => insertPriceDoc ps (barToDoc symbol b)) prices

/-- Embeds `MCPDatabaseServer._get_historical_data` (db_server.py lines
258-287).  `fetch` holds what `_fetch_data_from_api` would return (None for a
failed or empty fetch — the source never returns an empty frame from the
API helper).  Freshness: if the newest stored bar is at most 1 calendar day
old, the stored series is used without fetching; otherwise a successful
non-empty fetch is stored and returned, and a failed fetch falls back to the
(possibly missing) stored data. -/
def get_historical_data (st : DbState) (fetch : Option (List Bar))
    (symbol period : String) (today : ℤ) : Option (List Bar) × DbState :=
  let df := get_data_from_db st.prices symbol period today
  let isFresh := match df with
    | some bars => decide (today - maxDate bars ≤ 1)
    | none => false
  if isFresh then (df, st)
  else
    match fetch with
    | some fresh =>
      if fresh ≠ [] then
        (some fresh, { st with prices := store_price_data_bulk st.prices symbol fresh })
      else (df, st)
    | none => (df, st)

/-- Embeds `MCPDatabaseServer._get_recent_analysis` (db_server.py lines
229-256): find_one on `volatility_metrics` matching symbol and period with
`timestamp >= now - 1 hour`, sorted by timestamp descending (the earliest
maximal entry is taken, modelling the sort + find_one). -/
def get_recent_analysis (analyses : List StoredAnalysis) (symbol period : String)
    (now : ℤ) : Option StoredAnalysis :=
  let eligible := analyses.filter (fun a =>
    a.symbol == symbol && a.period == period && decide (now - 3600 ≤ a.timestamp))
  eligible.foldl (fun acc a =>
    match acc with
    | none => some a
    | some b => if a.timestamp > b.timestamp then some a else some b) none

/-- The value `analyze_risk` hands back to the JSON-RPC layer: either the
freshly computed metrics dict (which is also what gets stored), or a cached
`volatility_metrics` document (which additionally carries symbol, period and
the original computation timestamp). -/
inductive RiskResult where
  | fresh (metrics : Except String DbRiskRecord)
  | cached (record : StoredAnalysis)

/-- Embeds `MCPDatabaseServer.analyze_risk` (db_server.py lines 139-164):
serve a cached analysis no older than one hour when one exists; otherwise
resolve the price series, compute the metrics dict, store it with the
current timestamp, and return it.  A missing or empty series yields None.
`now` is the current time in seconds (cache timestamps), `today` the current
day number (price freshness). -/
noncomputable def analyze_risk (st : DbState) (fetch : Option (List Bar))
    (symbol period : String) (now today : ℤ) : Option RiskResult × DbState :=
  match get_recent_analysis st.analyses symbol period now with
  | some a => (some (RiskResult.cached a), st)
  | none =>
    let r := get_historical_data st fetch symbol period today
    match r.1 with
    | none => (none, r.2)
    | some bars =>
      if bars = [] then (none, r.2)
      else
        let m := db_calculate_risk_metrics (bars.map (fun b => (b.date, b.Close)))
        (some (RiskResult.fresh m),
          { r.2 with analyses := r.2.analyses ++ [⟨symbol, period, now, m⟩] })

/-- Auxiliary: the agent classifier answers HIGH whenever all three high-risk
indicators fire. -/
theorem classify_risk_level_high {α : Type} [LinearOrderedField α]
    {v d r : α} (h1 : v > 3/10) (h2 : d < -(2/10)) (h3 : r < -(3/100)) :
    classify_risk_level v d r = "HIGH" := by
  simp only [classify_risk_level]
  rw [if_pos h1, if_pos h2, if_pos h3]
  norm_num

/-- Auxiliary: the specification scoring answers Very High whenever all three
sub-scores are maximal. -/
theorem specRiskClassification_very_high {α : Type} [LinearOrderedField α]
    {v d r : α} (h1 : v > 40/100) (h2 : d < -(30/100)) (h3 : r < -(5/100)) :
    specRiskClassification v d r = "Very High" := by
  simp only [specRiskClassification, specVolSubscore, specDrawdownSubscore, specVarSubscore]
  simp only [if_pos h1, if_pos h2, if_pos h3]
  norm_num

/-- Price history exercising the agent's direct-calculation path: 11 bars
whose 10 returns alternate +50 percent and -50 percent. -/
def C1hist : DSeries :=
  [(0, 64), (1, 96), (2, 48), (3, 72), (4, 36), (5, 54), (6, 27), (7, 81/2),
   (8, 81/4), (9, 243/8), (10, 243/16)]

/-- The return values derived from `C1hist`. -/
def C1vals : List ℚ :=
  [1/2, -(1/2), 1/2, -(1/2), 1/2, -(1/2), 1/2, -(1/2), 1/2, -(1/2)]

/-- The record the agent's direct path computes for `C1hist` (benchmark
history empty, so beta is absent). -/
noncomputable def C1rec : AgentRiskRecord :=
  compute_risk_metrics (finiteSeries (pctChangeDropna C1hist))
    (C1hist.map (fun p => p.2)) []

/-- C1 counterexample: a returns series accepted for risk computation on the
agent's direct-calculation path (10 returns, the minimum) whose produced
risk level is "HIGH", while the fixed 0-9 scoring of the very same metrics
(volatility, max drawdown, VaR-95) is "Very High".  So the classification
does not equal the 0-9 scoring on every computation path. -/
theorem C1_agent_path_counterexample :
    agent_calculate_risk_metrics C1hist [] = some C1rec ∧
    C1rec.risk_level = "HIGH" ∧
    specRiskClassification C1rec.volatility ((C1rec.max_drawdown : ℚ) : ℝ)
      ((C1rec.var_95 : ℚ) : ℝ) = "Very High" := by
  have hfin : finiteSeries (pctChangeDropna C1hist) =
      [((1:ℤ), (1:ℚ)/2), (2, -(1/2)), (3, 1/2), (4, -(1/2)), (5, 1/2), (6, -(1/2)),
       (7, 1/2), (8, -(1/2)), (9, 1/2), (10, -(1/2))] := by
    norm_num [C1hist, pctChangeDropna, pctStep, PFloat.isNaN, finiteSeries, PFloat.toRat,
      List.filterMap_cons]
  have hvals : (finiteSeries (pctChangeDropna C1hist)).map (fun p => p.2) = C1vals := by
    rw [hfin]; norm_num [C1vals]
  have hvar : sampleVar C1vals = 5/18 := by
    norm_num [C1vals, sampleVar, listMean]
  have hdd : maxDrawdown C1vals = -(431/512) := by
    norm_num [C1vals, maxDrawdown, List.scanl]
  have hv95 : percentile C1vals 5 = -(1/2) := by
    norm_num [C1vals, percentile, List.insertionSort, List.orderedInsert]
  have hvol : Real.sqrt (((5:ℚ)/18 : ℚ) : ℝ) * Real.sqrt 252 = Real.sqrt 70 := by
    have hc : (((5:ℚ)/18 : ℚ) : ℝ) = 5/18 := by norm_num
    rw [hc, ← Real.sqrt_mul (by norm_num)]
    norm_num
  have hrec : C1rec.risk_level = "HIGH" ∧
      specRiskClassification C1rec.volatility ((C1rec.max_drawdown : ℚ) : ℝ)
        ((C1rec.var_95 : ℚ) : ℝ) = "Very High" := by
    have hlevel : C1rec.risk_level =
        classify_risk_level (Real.sqrt ((sampleVar C1vals : ℚ) : ℝ) * Real.sqrt 252)
          ((maxDrawdown C1vals : ℚ) : ℝ) ((percentile C1vals 5 : ℚ) : ℝ) := by
      simp only [C1rec, compute_risk_metrics, hvals]
    have hvolat : C1rec.volatility =
        Real.sqrt ((sampleVar C1vals : ℚ) : ℝ) * Real.sqrt 252 := by
      simp only [C1rec, compute_risk_metrics, hvals]
    have hmdd : C1rec.max_drawdown = maxDrawdown C1vals := by
      simp only [C1rec, compute_risk_metrics, hvals]
    have hv95r : C1rec.var_95 = percentile C1vals 5 := by
      simp only [C1rec, compute_risk_metrics, hvals]
    constructor
    · rw [hlevel, hvar, hdd, hv95, hvol]
      apply classify_risk_level_high
      · rw [gt_iff_lt, Real.lt_sqrt (by norm_num)]; norm_num
      · norm_num
      · norm_num
    · rw [hvolat, hmdd, hv95r, hvar, hdd, hv95, hvol]
      apply specRiskClassification_very_high
      · rw [gt_iff_lt, Real.lt_sqrt (by norm_num)]; norm_num
      · norm_num
      · norm_num
  refine ⟨?_, hrec.1, hrec.2⟩
  have hne : C1hist ≠ [] := by simp [C1hist]
  have hlen : (pctChangeDropna C1hist).length = 10 := by
    norm_num [C1hist, pctChangeDropna, pctStep, PFloat.isNaN]
  simp only [agent_calculate_risk_metrics, C1rec]
  rw [if_neg hne, if_neg (by rw [hlen]; norm_num)]

/-- C1 (amended): the DB-server classification reproduces the fixed 0-9
scoring exactly (for any ordered-field inputs, in particular the float
metrics), while the agent's direct-calculation path classifies by counting
high/medium threshold indicators and only ever produces HIGH, MEDIUM or
LOW — a different scheme with different labels. -/
theorem C1_classification_refinement :
    (∀ (α : Type) [LinearOrderedField α] (v d r : α),
      classify_risk v d r = specRiskClassification v d r) ∧
    (∀ (α : Type) [LinearOrderedField α] (v d r : α),
      classify_risk_level v d r = "HIGH" ∨ classify_risk_level v d r = "MEDIUM" ∨
        classify_risk_level v d r = "LOW") := by
  constructor
  · intro α _ v d r
    simp only [classify_risk, specRiskClassification, specVolSubscore,
      specDrawdownSubscore, specVarSubscore, Nat.zero_add]
  · intro α _ v d r
    simp only [classify_risk_level]
    split_ifs <;> simp

/-- Auxiliary: a pct-change step with nonzero previous close is the finite
simple return. -/
theorem pctStep_of_ne (prev cur : ℚ) (h : prev ≠ 0) :
    pctStep prev cur = PFloat.val ((cur - prev) / prev) := by
  simp [pctStep, h]

/-- C7 counterexample: with a zero prior close the source does not behave as
claimed.  Two bars closing 0 then 0 produce an empty returns series (the
`0/0` NaN is dropped), not the claimed max(n-1,0) = 1 returns; and two bars
closing 0 then 5 keep the position with zero prior close as an IEEE
infinity instead of excluding it. -/
theorem C7_zero_close_counterexample :
    pctChangeDropna [((0:ℤ), (0:ℚ)), (1, 0)] = [] ∧
    ([((0:ℤ), (0:ℚ)), (1, 0)] : DSeries).length - 1 = 1 ∧
    pctChangeDropna [((0:ℤ), (0:ℚ)), (1, 5)] = [(1, PFloat.inf)] := by
  refine ⟨?_, by norm_num, ?_⟩ <;>
    norm_num [pctChangeDropna, pctStep, PFloat.isNaN]

/-- C7 (amended): for every price series all of whose closes are nonzero,
the derived returns series has exactly length n - 1 (so max(n-1,0): a series
of fewer than 2 bars yields no returns) and every produced return is a
finite value.  When a prior close is zero the source instead drops the
position only if the current close is also zero (0/0 = NaN) and otherwise
keeps an IEEE infinity. -/
theorem C7_returns_length (s : DSeries) (hz : ∀ p ∈ s, p.2 ≠ 0) :
    (pctChangeDropna s).length = s.length - 1 ∧
    ∀ e ∈ pctChangeDropna s, ∃ q : ℚ, e.2 = PFloat.val q := by
  have hall : ∀ e ∈ (s.zip s.tail).map (fun pc => (pc.2.1, pctStep pc.1.2 pc.2.2)),
      ∃ q, e.2 = PFloat.val q := by
    intro e he
    obtain ⟨⟨p, c⟩, hpc, rfl⟩ := List.mem_map.mp he
    exact ⟨_, pctStep_of_ne p.2 c.2 (hz p (List.of_mem_zip hpc).1)⟩
  have hfilter : pctChangeDropna s =
      (s.zip s.tail).map (fun pc => (pc.2.1, pctStep pc.1.2 pc.2.2)) := by
    unfold pctChangeDropna
    apply List.filter_eq_self.mpr
    intro e he
    obtain ⟨q, hq⟩ := hall e he
    simp [hq, PFloat.isNaN]
  constructor
  · rw [hfilter, List.length_map, List.length_zip, List.length_tail]
    exact Nat.min_eq_right (Nat.sub_le _ _)
  · intro e he
    rw [hfilter] at he
    exact hall e he

/-- Witness series for C7: three bars with nonzero closes. -/
def C7hist : DSeries := [(0, 100), (1, 102), (2, 101)]

/-- Witness for C7 at a concrete nonzero-close series. -/
theorem C7_returns_length_witness :
    (∀ p ∈ C7hist, p.2 ≠ 0) ∧ (pctChangeDropna C7hist).length = C7hist.length - 1 := by
  have h : ∀ p ∈ C7hist, p.2 ≠ 0 := by
    intro p hp
    simp only [C7hist, List.mem_cons, List.not_mem_nil, or_false] at hp
    rcases hp with rfl | rfl | rfl <;> norm_num
  exact ⟨h, (C7_returns_length C7hist h).1⟩

/-- A six-bar price series with 5 returns, below the 10-observation
threshold. -/
def C2hist : DSeries := [(0, 100), (1, 101), (2, 102), (3, 103), (4, 104), (5, 105)]

/-- A three-bar price series with 2 returns. -/
def C2short : DSeries := [(0, 100), (1, 101), (2, 102)]

/-- C2 counterexample: a resolved price series whose derived returns series
has 5 observations (fewer than 10) for which the DB-server computation path
returns a successful risk-metrics record instead of failing with
InsufficientData. -/
theorem C2_db_path_counterexample :
    (pctChangeDropna C2hist).length = 5 ∧
    (db_calculate_risk_metrics C2hist).isOk = true := by
  have h : (pctChangeDropna C2hist).length = 5 := by
    norm_num [C2hist, pctChangeDropna, pctStep, PFloat.isNaN]
  refine ⟨h, ?_⟩
  simp only [db_calculate_risk_metrics]
  rw [if_neg (by rw [h]; norm_num)]
  rfl

/-- C2 (amended): the direct-calculation path refuses any series with fewer
than 10 derived returns, but the DB-server path only refuses fewer than 2:
it returns the InsufficientData error dict exactly when fewer than 2 returns
survive, and computes a full record for every series with 2 or more returns
(including 2-9 returns, which the claim says must fail). -/
theorem C2_insufficient_data_gates :
    (∀ hist nifty : DSeries, (pctChangeDropna hist).length < 10 →
      agent_calculate_risk_metrics hist nifty = none) ∧
    (∀ df : DSeries, (pctChangeDropna df).length < 2 →
      db_calculate_risk_metrics df = Except.error "Insufficient data for risk calculation") ∧
    (∀ df : DSeries, 2 ≤ (pctChangeDropna df).length →
      (db_calculate_risk_metrics df).isOk = true) := by
  refine ⟨?_, ?_, ?_⟩
  · intro hist nifty h
    simp only [agent_calculate_risk_metrics]
    rcases eq_or_ne hist [] with rfl | hne
    · rw [if_pos rfl]
    · rw [if_neg hne, if_pos h]
  · intro df h
    simp only [db_calculate_risk_metrics]
    rw [if_pos h]
  · intro df h
    simp only [db_calculate_risk_metrics]
    rw [if_neg (by omega)]
    rfl

/-- Witness for C2 on all three gates at concrete series. -/
theorem C2_insufficient_data_gates_witness :
    (pctChangeDropna C2short).length < 10 ∧
    agent_calculate_risk_metrics C2short [] = none ∧
    (pctChangeDropna [((0:ℤ), (1:ℚ))]).length < 2 ∧
    db_calculate_risk_metrics [((0:ℤ), (1:ℚ))] =
      Except.error "Insufficient data for risk calculation" ∧
    2 ≤ (pctChangeDropna C2hist).length ∧
    (db_calculate_risk_metrics C2hist).isOk = true := by
  have h1 : (pctChangeDropna C2short).length < 10 := by
    norm_num [C2short, pctChangeDropna, pctStep, PFloat.isNaN]
  have h2 : (pctChangeDropna [((0:ℤ), (1:ℚ))]).length < 2 := by
    norm_num [pctChangeDropna, pctStep, PFloat.isNaN]
  have h3 : 2 ≤ (pctChangeDropna C2hist).length := by
    norm_num [C2hist, pctChangeDropna, pctStep, PFloat.isNaN]
  exact ⟨h1, C2_insufficient_data_gates.1 C2short [] h1, h2,
    C2_insufficient_data_gates.2.1 _ h2, h3, C2_insufficient_data_gates.2.2 _ h3⟩

/-- Auxiliary: population variance of a constant list is zero. -/
theorem popVar_const (l : List ℚ) (c : ℚ) (h : ∀ x ∈ l, x = c) : popVar l = 0 := by
  rcases eq_or_ne l [] with rfl | hne
  · simp [popVar, listMean]
  · have hlen : (l.length : ℚ) ≠ 0 := by
      have := List.length_pos.mpr hne
      positivity
    have hmean : listMean l = c := by
      rw [listMean, List.sum_eq_card_nsmul l c h, nsmul_eq_mul]
      field_simp
    have hzero : (l.map (fun x => (x - listMean l) ^ 2)).sum = 0 := by
      apply List.sum_eq_zero
      intro x hx
      obtain ⟨y, hy, rfl⟩ := List.mem_map.mp hx
      rw [h y hy, hmean]
      ring
    rw [popVar, hzero, zero_div]

/-- Auxiliary: the benchmark value of every aligned pair occurs in the
benchmark series. -/
theorem align_snd_mem (xs ys : DSeries) :
    ∀ p ∈ alignByDate xs ys, ∃ y ∈ ys, y.2 = p.2 := by
  intro p hp
  simp only [alignByDate] at hp
  obtain ⟨x, _, hmap⟩ := List.mem_filterMap.mp hp
  cases hfind : lookupDate x.1 ys with
  | none => rw [hfind] at hmap; simp at hmap
  | some v =>
    rw [hfind] at hmap
    simp only [Option.map_some', Option.some.injEq] at hmap
    simp only [lookupDate] at hfind
    cases hf : ys.find? (fun y => y.1 == x.1) with
    | none => rw [hf] at hfind; simp at hfind
    | some y =>
      rw [hf] at hfind
      simp only [Option.map_some', Option.some.injEq] at hfind
      refine ⟨y, List.mem_of_find?_eq_some hf, ?_⟩
      rw [hfind, ← hmap]

/-- Auxiliary: every finite return derived from a constant-close series is
zero (a zero constant close yields only NaN steps, which are dropped). -/
theorem const_series_returns_zero (bh : DSeries) (c : ℚ) (h : ∀ p ∈ bh, p.2 = c) :
    ∀ e ∈ finiteSeries (pctChangeDropna bh), e.2 = 0 := by
  intro e he
  simp only [finiteSeries] at he
  obtain ⟨x, hx, hmap⟩ := List.mem_filterMap.mp he
  have hx2 : x ∈ (bh.zip bh.tail).map (fun pc => (pc.2.1, pctStep pc.1.2 pc.2.2)) :=
    List.mem_of_mem_filter hx
  obtain ⟨⟨p, q⟩, hpq, rfl⟩ := List.mem_map.mp hx2
  have hp : p.2 = c := h p (List.of_mem_zip hpq).1
  have hq : q.2 = c := h q (List.mem_of_mem_tail (List.of_mem_zip hpq).2)
  by_cases hc : c = 0
  · rw [hp, hq, hc] at hmap
    simp [pctStep, PFloat.toRat] at hmap
  · rw [hp, hq, pctStep_of_ne c c hc] at hmap
    simp only [PFloat.toRat, Option.map_some', Option.some.injEq] at hmap
    rw [← hmap]
    simp

/-- Auxiliary: the agent beta is absent when fewer than 10 dates align. -/
theorem calculate_beta_short (sr bh : DSeries)
    (h : (alignByDate sr (finiteSeries (pctChangeDropna bh))).length < 10) :
    calculate_beta sr bh = none := by
  simp only [calculate_beta]
  rcases eq_or_ne bh [] with rfl | hne
  · rw [if_pos rfl]
  · rw [if_neg hne, if_pos h]

/-- Auxiliary: the agent beta is absent when the aligned benchmark variance
is zero. -/
theorem calculate_beta_degenerate (sr bh : DSeries)
    (h : popVar ((alignByDate sr (finiteSeries (pctChangeDropna bh))).map (fun p => p.2)) = 0) :
    calculate_beta sr bh = none := by
  simp only [calculate_beta]
  rcases eq_or_ne bh [] with rfl | hne
  · rw [if_pos rfl]
  · rw [if_neg hne]
    by_cases hlen : (alignByDate sr (finiteSeries (pctChangeDropna bh))).length < 10
    · rw [if_pos hlen]
    · rw [if_neg hlen, if_neg (by simp [h])]

/-- C5 counterexample: the DB-server path produces a present beta from the
instrument's returns alone.  Here the instrument has only 2 return
observations, so no benchmark could align 10 dates with it and the claim
demands an absent beta, yet the DB-server beta is present (and no benchmark
variance is ever examined). -/
theorem C5_db_beta_counterexample :
    calculate_beta_simplified [1/100, 2/100] ≠ none ∧
    ([(1/100 : ℚ), 2/100]).length < 10 := by
  constructor
  · simp [calculate_beta_simplified]
  · norm_num

/-- C5 (amended): the agent's beta follows the claimed contract — absent
when fewer than 10 dates align, absent when the aligned benchmark variance
is zero (in particular for any constant benchmark price series, with no
division error), and otherwise the np.cov(ddof=1)/np.var(ddof=0) ratio of
the date-aligned series.  The DB-server path does not follow it: its
simplified beta consults no benchmark and is always present. -/
theorem C5_beta_estimation :
    (∀ sr bh : DSeries,
      (alignByDate sr (finiteSeries (pctChangeDropna bh))).length < 10 →
      calculate_beta sr bh = none) ∧
    (∀ sr bh : DSeries,
      popVar ((alignByDate sr (finiteSeries (pctChangeDropna bh))).map (fun p => p.2)) = 0 →
      calculate_beta sr bh = none) ∧
    (∀ sr bh : DSeries,
      10 ≤ (alignByDate sr (finiteSeries (pctChangeDropna bh))).length →
      popVar ((alignByDate sr (finiteSeries (pctChangeDropna bh))).map (fun p => p.2)) ≠ 0 →
      calculate_beta sr bh = some
        (sampleCov ((alignByDate sr (finiteSeries (pctChangeDropna bh))).map (fun p => p.1))
            ((alignByDate sr (finiteSeries (pctChangeDropna bh))).map (fun p => p.2)) /
          popVar ((alignByDate sr (finiteSeries (pctChangeDropna bh))).map (fun p => p.2)))) ∧
    (∀ (sr bh : DSeries) (c : ℚ), (∀ p ∈ bh, p.2 = c) → calculate_beta sr bh = none) ∧
    (∀ returns : List ℚ, calculate_beta_simplified returns ≠ none) := by
  refine ⟨calculate_beta_short, calculate_beta_degenerate, ?_, ?_, ?_⟩
  · intro sr bh hlen hvar
    simp only [calculate_beta]
    have hne : bh ≠ [] := by
      intro hbh
      subst hbh
      have hempty : alignByDate sr (finiteSeries (pctChangeDropna [])) = [] := by
        simp [alignByDate, lookupDate, pctChangeDropna, finiteSeries]
      rw [hempty] at hlen
      simp at hlen
    rw [if_neg hne, if_neg (by omega), if_pos hvar]
  · intro sr bh c h
    apply calculate_beta_degenerate
    apply popVar_const _ 0
    intro x hx
    obtain ⟨p, hp, rfl⟩ := List.mem_map.mp hx
    obtain ⟨y, hy, hy2⟩ := align_snd_mem sr _ p hp
    rw [← hy2]
    exact const_series_returns_zero bh c h y hy
  · intro returns
    simp [calculate_beta_simplified]

/-- A constant-price benchmark for the C5 witness. -/
def C5bench : DSeries := [(0, 100), (1, 100), (2, 100)]

/-- Witness for C5: the short-alignment and constant-benchmark branches at
concrete inputs. -/
theorem C5_beta_estimation_witness :
    (alignByDate [] (finiteSeries (pctChangeDropna C5bench))).length < 10 ∧
    calculate_beta [] C5bench = none ∧
    (∀ p ∈ C5bench, p.2 = 100) ∧
    calculate_beta C7hist C5bench = none := by
  have h1 : (alignByDate [] (finiteSeries (pctChangeDropna C5bench))).length < 10 := by
    simp [alignByDate]
  have h2 : ∀ p ∈ C5bench, p.2 = 100 := by
    intro p hp
    simp only [C5bench, List.mem_cons, List.not_mem_nil, or_false] at hp
    rcases hp with rfl | rfl | rfl <;> norm_num
  exact ⟨h1, C5_beta_estimation.1 [] C5bench h1, h2,
    C5_beta_estimation.2.2.2.1 C7hist C5bench 100 h2⟩

/-- Auxiliary: the portfolio-volatility helper returns None for any
single-symbol call — it requires at least two resolvable symbols. -/
theorem portfolio_vol_single (s : String) (weights : List ℚ)
    (hist : String → Option DSeries) :
    calculate_portfolio_volatility [s] weights hist = none := by
  simp only [calculate_portfolio_volatility]
  have hdup : ([s] : List String).eraseDups = [s] := rfl
  rw [hdup]
  cases hh : hist s with
  | none => simp [List.filterMap_cons, hh]
  | some hdata => simp [List.filterMap_cons, hh]

/-- A fixed record standing in for a successful per-symbol risk analysis. -/
noncomputable def dummyRecord : AgentRiskRecord :=
  { volatility := 0, var_95 := 0, var_99 := 0, cvar_95 := 0, cvar_99 := 0,
    max_drawdown := 0, sharpe := 0, beta := none, mean_return := 0, std_return := 0,
    current_price := 0, price_52w_high := 0, price_52w_low := 0, price_position := 0,
    risk_level := "LOW", upside_potential := 0, downside_risk := 0 }

/-- A risk collaborator that resolves every symbol. -/
noncomputable def someRisk : String → Option AgentRiskRecord := fun _ => some dummyRecord

/-- C6 counterexample: a single resolvable symbol with weight 1.0.  The
symbol's own risk record (hence its individual annualized volatility) is
produced by the direct path, yet the portfolio volatility is absent, because
the source requires at least two resolvable symbols — so it does not equal
the individual volatility within any tolerance. -/
theorem C6_single_symbol_counterexample :
    calculate_portfolio_volatility ["A"] [1] (fun _ => some C1hist) = none ∧
    agent_calculate_risk_metrics C1hist [] = some C1rec := by
  constructor
  · exact portfolio_vol_single "A" [1] _
  · have hne : C1hist ≠ [] := by simp [C1hist]
    have hlen : (pctChangeDropna C1hist).length = 10 := by
      norm_num [C1hist, pctChangeDropna, pctStep, PFloat.isNaN]
    simp only [agent_calculate_risk_metrics, C1rec]
    rw [if_neg hne, if_neg (by rw [hlen]; norm_num)]

/-- C6 (amended): portfolio aggregation over a single symbol produces an
absent portfolio volatility (for any weights), and the full
analyze-portfolio call over one resolvable symbol with weight 1.0 succeeds
with a record whose portfolio-volatility field is None — not the symbol's
individual annualized volatility. -/
theorem C6_portfolio_single_symbol :
    (∀ (s : String) (weights : List ℚ) (hist : String → Option DSeries),
      calculate_portfolio_volatility [s] weights hist = none) ∧
    (∀ (s : String) (w : ℚ) (hist : String → Option DSeries)
        (risk : String → Option AgentRiskRecord), (risk s).isSome = true →
      (analyze_portfolio_risk [s] (some [w]) hist risk).map
        PortfolioRecord.portfolio_volatility = some none) := by
  refine ⟨portfolio_vol_single, ?_⟩
  intro s w hist risk h
  obtain ⟨r, hr⟩ := Option.isSome_iff_exists.mp h
  simp only [analyze_portfolio_risk]
  rw [if_neg (by simp)]
  rw [if_neg (by simp)]
  have hdup : ([s] : List String).eraseDups = [s] := rfl
  rw [hdup]
  simp only [List.filterMap_cons, List.filterMap_nil, hr, Option.map_some']
  rw [if_neg (by simp)]
  simp only [Option.map_some']
  rw [portfolio_vol_single]
  rfl

/-- Witness for C6 at a concrete resolvable symbol. -/
theorem C6_portfolio_single_symbol_witness :
    ((someRisk "A").isSome = true) ∧
    (analyze_portfolio_risk ["A"] (some [1]) (fun _ => none) someRisk).map
      PortfolioRecord.portfolio_volatility = some none :=
  ⟨rfl, C6_portfolio_single_symbol.2 "A" 1 (fun _ => none) someRisk rfl⟩

/-- C9 counterexample: with per-symbol risk data fully available, a
weight/symbol count mismatch produces the empty dict (modelled `none`) —
the very value a complete data failure produces (second conjunct) — because
the ValueError raised for the mismatch is swallowed by the blanket
exception handler.  The caller receives no typed InvalidWeights failure. -/
theorem C9_untyped_failure_counterexample :
    analyze_portfolio_risk ["A"] (some [1/2, 1/2]) (fun _ => none) someRisk = none ∧
    analyze_portfolio_risk ["B"] (some [1]) (fun _ => none) (fun _ => none) = none := by
  constructor
  · simp only [analyze_portfolio_risk]
    rw [if_neg (by simp), if_pos (by norm_num)]
  · simp only [analyze_portfolio_risk]
    rw [if_neg (by simp), if_neg (by norm_num)]
    simp [List.filterMap_cons]

/-- C9 (amended): whenever the number of explicit weights differs from the
number of symbols, analyze_portfolio_risk returns the empty dict (modelled
`none`) — the generic caught-exception result, not a typed InvalidWeights
failure visible to the caller. -/
theorem C9_invalid_weights_empty_dict
    (symbols : List String) (weights : List ℚ) (hist : String → Option DSeries)
    (risk : String → Option AgentRiskRecord)
    (h : weights.length ≠ symbols.length) :
    analyze_portfolio_risk symbols (some weights) hist risk = none := by
  simp only [analyze_portfolio_risk]
  rw [if_neg (by simp), if_pos h]

/-- Witness for C9 at a concrete mismatched call. -/
theorem C9_invalid_weights_empty_dict_witness :
    ([(1:ℚ)/2, 1/2].length ≠ (["A"] : List String).length) ∧
    analyze_portfolio_risk ["A"] (some [1/2, 1/2]) (fun _ => none) (fun _ => none) = none := by
  have h : ([(1:ℚ)/2, 1/2].length ≠ (["A"] : List String).length) := by norm_num
  exact ⟨h, C9_invalid_weights_empty_dict _ _ _ _ h⟩

/-- C10: omitting the weights argument behaves identically to passing the
explicit equal weights 1/len(symbols), and the returned record's weights
field (when a record is returned) lists exactly those equal weights. -/
theorem C10_default_weights (symbols : List String) (hist : String → Option DSeries)
    (risk : String → Option AgentRiskRecord) (h : symbols ≠ []) :
    analyze_portfolio_risk symbols none hist risk =
      analyze_portfolio_risk symbols
        (some (List.replicate symbols.length (1 / (symbols.length : ℚ)))) hist risk ∧
    (analyze_portfolio_risk symbols none hist risk).map PortfolioRecord.weights =
      (analyze_portfolio_risk symbols none hist risk).map
        (fun _ => List.replicate symbols.length (1 / (symbols.length : ℚ))) := by
  have h0 : ¬symbols.length = 0 := by simpa [List.length_eq_zero] using h
  constructor
  · simp [analyze_portfolio_risk, h0]
  · by_cases hind : (symbols.eraseDups.filterMap
        (fun s => (risk s).map (fun r => (s, r)))).length = 0
    · simp [analyze_portfolio_risk, h0, hind]
    · simp [analyze_portfolio_risk, h0, hind]

/-- Witness for C10 at a concrete symbol list. -/
theorem C10_default_weights_witness :
    ((["A"] : List String) ≠ []) ∧
    analyze_portfolio_risk ["A"] none (fun _ => none) someRisk =
      analyze_portfolio_risk ["A"]
        (some (List.replicate (["A"] : List String).length
          (1 / (((["A"] : List String).length : ℚ))))) (fun _ => none) someRisk :=
  ⟨by simp, (C10_default_weights ["A"] (fun _ => none) someRisk (by simp)).1⟩

/-- Auxiliary: when every matching stored analysis is older than one hour,
the cache filter is empty. -/
theorem stale_filter_eq_nil (analyses : List StoredAnalysis) (symbol period : String)
    (now : ℤ)
    (h : ∀ a ∈ analyses, a.symbol = symbol → a.period = period → a.timestamp < now - 3600) :
    analyses.filter (fun a =>
      a.symbol == symbol && a.period == period && decide (now - 3600 ≤ a.timestamp)) = [] := by
  apply List.filter_eq_nil_iff.mpr
  intro a ha
  by_cases h1 : a.symbol = symbol
  · by_cases h2 : a.period = period
    · have := h a ha h1 h2
      simp [h1, h2]
      omega
    · simp [h2]
  · simp [h1]

/-- Auxiliary: the cache lookup treats records older than one hour as
missing. -/
theorem get_recent_analysis_none (analyses : List StoredAnalysis) (symbol period : String)
    (now : ℤ)
    (h : ∀ a ∈ analyses, a.symbol = symbol → a.period = period → a.timestamp < now - 3600) :
    get_recent_analysis analyses symbol period now = none := by
  simp only [get_recent_analysis, stale_filter_eq_nil analyses symbol period now h]
  rfl

/-- Auxiliary: appending a fresh matching record to an otherwise stale store
makes the cache lookup return exactly that record. -/
theorem get_recent_analysis_append_fresh (analyses : List StoredAnalysis)
    (symbol period : String) (now : ℤ) (sa : StoredAnalysis)
    (hold : ∀ a ∈ analyses, a.symbol = symbol → a.period = period → a.timestamp < now - 3600)
    (hsym : sa.symbol = symbol) (hper : sa.period = period)
    (ht : now - 3600 ≤ sa.timestamp) :
    get_recent_analysis (analyses ++ [sa]) symbol period now = some sa := by
  simp only [get_recent_analysis, List.filter_append,
    stale_filter_eq_nil analyses symbol period now hold]
  have ht2 : now ≤ sa.timestamp + 3600 := by omega
  simp [List.filter_cons, List.foldl_cons, List.foldl_nil, hsym, hper, ht, ht2]

/-- Auxiliary: the freshness gate never touches the analysis collection. -/
theorem get_historical_data_analyses (st : DbState) (fetch : Option (List Bar))
    (symbol period : String) (today : ℤ) :
    (get_historical_data st fetch symbol period today).2.analyses = st.analyses := by
  simp only [get_historical_data]
  split
  · rfl
  · split
    · split
      · rfl
      · rfl
    · rfl

/-- C3: after a successful computation at time t (cache miss, data resolved,
record stored), a second call within one hour (t ≤ t2 ≤ t + 3600) with any
fetch outcome returns exactly the stored record — same symbol, period,
computed-at timestamp t and metrics — without recomputing (the state is
unchanged).  And the cache lookup treats every record older than one hour as
missing. -/
theorem C3_cache_idempotent (st : DbState) (fetch fetch2 : Option (List Bar))
    (sym per : String) (t t2 today today2 : ℤ) (bars : List Bar)
    (h0 : ∀ a ∈ st.analyses, a.symbol = sym → a.period = per → a.timestamp < t - 3600)
    (h1 : (get_historical_data st fetch sym per today).1 = some bars)
    (h2 : bars ≠ [])
    (h3 : t ≤ t2) (h4 : t2 ≤ t + 3600) :
    (analyze_risk st fetch sym per t today).1 =
      some (RiskResult.fresh (db_calculate_risk_metrics (bars.map (fun b => (b.date, b.Close))))) ∧
    analyze_risk ((analyze_risk st fetch sym per t today).2) fetch2 sym per t2 today2 =
      (some (RiskResult.cached ⟨sym, per, t,
        db_calculate_risk_metrics (bars.map (fun b => (b.date, b.Close)))⟩),
       (analyze_risk st fetch sym per t today).2) ∧
    (∀ (records : List StoredAnalysis) (sym2 per2 : String) (now2 : ℤ),
      (∀ a ∈ records, a.symbol = sym2 → a.period = per2 → a.timestamp < now2 - 3600) →
      get_recent_analysis records sym2 per2 now2 = none) := by
  have hnone : get_recent_analysis st.analyses sym per t = none :=
    get_recent_analysis_none st.analyses sym per t h0
  have heval : analyze_risk st fetch sym per t today =
      (some (RiskResult.fresh (db_calculate_risk_metrics (bars.map (fun b => (b.date, b.Close))))),
       { (get_historical_data st fetch sym per today).2 with
          analyses := (get_historical_data st fetch sym per today).2.analyses ++
            [⟨sym, per, t, db_calculate_risk_metrics (bars.map (fun b => (b.date, b.Close)))⟩] }) := by
    simp only [analyze_risk, hnone, h1]
    rw [if_neg h2]
  have hstate : (analyze_risk st fetch sym per t today).2.analyses =
      st.analyses ++
        [⟨sym, per, t, db_calculate_risk_metrics (bars.map (fun b => (b.date, b.Close)))⟩] := by
    rw [heval]
    simp [get_historical_data_analyses]
  have hcached :
      get_recent_analysis ((analyze_risk st fetch sym per t today).2).analyses sym per t2 =
      some ⟨sym, per, t, db_calculate_risk_metrics (bars.map (fun b => (b.date, b.Close)))⟩ := by
    rw [hstate]
    apply get_recent_analysis_append_fresh
    · intro a ha ha1 ha2
      have := h0 a ha ha1 ha2
      omega
    · rfl
    · rfl
    · show t2 - 3600 ≤ t
      omega
  refine ⟨by rw [heval], ?_, fun records sym2 per2 now2 h =>
    get_recent_analysis_none records sym2 per2 now2 h⟩
  generalize hst1 : (analyze_risk st fetch sym per t today).2 = st1 at hcached ⊢
  simp only [analyze_risk, hcached]

/-- Three stored price documents (symbol A, days 8-10) for the cache and
freshness scenarios. -/
def C3prices : List PriceDoc :=
  [⟨"A", 8, 100, 100, 100, 100, 0⟩, ⟨"A", 9, 100, 100, 100, 101, 0⟩,
   ⟨"A", 10, 100, 100, 100, 102, 0⟩]

/-- Database state holding those prices and no stored analyses. -/
def C3st : DbState := ⟨C3prices, []⟩

/-- The bars the store serves for that scenario. -/
def C3bars : List Bar := C3prices.map docToBar

/-- Auxiliary: the concrete store read of the scenario. -/
theorem scenario_db_read : get_data_from_db C3prices "A" "1mo" 10 = some C3bars := by
  norm_num [get_data_from_db, periodDays, C3prices, C3bars, docToBar,
    List.insertionSort, List.orderedInsert, List.filter_cons]
  intro h
  simp at h

/-- Auxiliary: the newest stored bar of the scenario is day 10. -/
theorem scenario_max_date : maxDate C3bars = 10 := by
  norm_num [maxDate, C3bars, C3prices, docToBar]

/-- Auxiliary: the freshness gate serves the stored bars in the scenario
(the newest bar is 0 days old). -/
theorem scenario_get_historical :
    get_historical_data C3st none "A" "1mo" 10 = (some C3bars, C3st) := by
  have h : (10:ℤ) - maxDate C3bars ≤ 1 := by rw [scenario_max_date]; norm_num
  simp [get_historical_data, C3st, scenario_db_read, h]

/-- Witness for C3 at the concrete scenario: compute at t = 10000, call
again at t2 = 10500. -/
theorem C3_cache_idempotent_witness :
    ((get_historical_data C3st none "A" "1mo" 10).1 = some C3bars) ∧
    (C3bars ≠ []) ∧ ((10000:ℤ) ≤ 10500) ∧ ((10500:ℤ) ≤ 10000 + 3600) ∧
    analyze_risk ((analyze_risk C3st none "A" "1mo" 10000 10).2) none "A" "1mo" 10500 10 =
      (some (RiskResult.cached ⟨"A", "1mo", 10000,
        db_calculate_risk_metrics (C3bars.map (fun b => (b.date, b.Close)))⟩),
       (analyze_risk C3st none "A" "1mo" 10000 10).2) := by
  have h0 : ∀ a ∈ C3st.analyses, a.symbol = "A" → a.period = "1mo" →
      a.timestamp < 10000 - 3600 := by
    intro a ha
    simp [C3st] at ha
  have h1 : (get_historical_data C3st none "A" "1mo" 10).1 = some C3bars := by
    rw [scenario_get_historical]
  have h2 : C3bars ≠ [] := by simp [C3bars, C3prices]
  exact ⟨h1, h2, by norm_num, by norm_num,
    (C3_cache_idempotent C3st none none "A" "1mo" 10000 10500 10 10 C3bars h0 h1 h2
      (by norm_num) (by norm_num)).2.1⟩

/-- C4: whenever every stored analysis for (symbol, period) is stale (older
than one hour), the triggered recompute's outcome is what the caller gets:
if the price series cannot be resolved the call fails with None; if it
resolves but has insufficient returns the caller receives the
InsufficientData error dict; and in no case is any previously stored record
served. -/
theorem C4_no_stale_substitute (st : DbState) (fetch : Option (List Bar))
    (sym per : String) (now today : ℤ)
    (hstale : ∀ a ∈ st.analyses, a.symbol = sym → a.period = per → a.timestamp < now - 3600) :
    ((get_historical_data st fetch sym per today).1 = none →
      (analyze_risk st fetch sym per now today).1 = none) ∧
    (∀ bars, (get_historical_data st fetch sym per today).1 = some bars → bars ≠ [] →
      (pctChangeDropna (bars.map (fun b => (b.date, b.Close)))).length < 2 →
      (analyze_risk st fetch sym per now today).1 =
        some (RiskResult.fresh (Except.error "Insufficient data for risk calculation"))) ∧
    (∀ a ∈ st.analyses,
      (analyze_risk st fetch sym per now today).1 ≠ some (RiskResult.cached a)) := by
  have hnone : get_recent_analysis st.analyses sym per now = none :=
    get_recent_analysis_none st.analyses sym per now hstale
  refine ⟨?_, ?_, ?_⟩
  · intro h
    simp only [analyze_risk, hnone, h]
  · intro bars hb hne hlen
    have hmet : db_calculate_risk_metrics (bars.map (fun b => (b.date, b.Close))) =
        Except.error "Insufficient data for risk calculation" := by
      simp only [db_calculate_risk_metrics]
      rw [if_pos hlen]
    simp only [analyze_risk, hnone, hb]
    rw [if_neg hne, hmet]
  · intro a ha
    cases hb : (get_historical_data st fetch sym per today).1 with
    | none =>
      simp only [analyze_risk, hnone, hb]
      simp
    | some bars =>
      by_cases hne : bars = []
      · simp only [analyze_risk, hnone, hb]
        rw [if_pos hne]
        simp
      · simp only [analyze_risk, hnone, hb]
        rw [if_neg hne]
        simp

/-- Database state with one stale stored analysis and no price data. -/
def C4st : DbState := ⟨[], [⟨"A", "1mo", 1000, Except.error "old"⟩]⟩

/-- Witness for C4: the stale record is a 1000-second-old analysis, the
recompute finds no data, and the caller receives the failure. -/
theorem C4_no_stale_substitute_witness :
    (∀ a ∈ C4st.analyses, a.symbol = "A" → a.period = "1mo" →
      a.timestamp < 10000 - 3600) ∧
    (get_historical_data C4st none "A" "1mo" 10).1 = none ∧
    (analyze_risk C4st none "A" "1mo" 10000 10).1 = none := by
  have hstale : ∀ a ∈ C4st.analyses, a.symbol = "A" → a.period = "1mo" →
      a.timestamp < 10000 - 3600 := by
    intro a ha
    have h : a = ⟨"A", "1mo", 1000, Except.error "old"⟩ := by
      simpa [C4st] using ha
    subst h
    intro _ _
    norm_num
  have hg : (get_historical_data C4st none "A" "1mo" 10).1 = none := by
    simp [get_historical_data, get_data_from_db, C4st]
  exact ⟨hstale, hg,
    (C4_no_stale_substitute C4st none "A" "1mo" 10000 10 hstale).1 hg⟩

/-- C8: the freshness gate of the DB server.  (i) If a stored series exists
whose newest bar is at most 1 calendar day old, it is returned and nothing
is fetched or written.  (ii) Otherwise a successful non-empty fetch is
stored (duplicate (symbol, date) keys skipped) and returned.  (iii) A failed
(or empty) fetch falls back to whatever was stored — possibly nothing —
without raising. -/
theorem C8_freshness_gate (st : DbState) (fetch : Option (List Bar))
    (sym per : String) (today : ℤ) :
    (∀ bars, get_data_from_db st.prices sym per today = some bars →
      today - maxDate bars ≤ 1 →
      get_historical_data st fetch sym per today = (some bars, st)) ∧
    (∀ fresh, fetch = some fresh → fresh ≠ [] →
      (∀ bars, get_data_from_db st.prices sym per today = some bars →
        1 < today - maxDate bars) →
      get_historical_data st fetch sym per today =
        (some fresh, { st with prices := store_price_data_bulk st.prices sym fresh })) ∧
    ((fetch = none ∨ fetch = some []) →
      (∀ bars, get_data_from_db st.prices sym per today = some bars →
        1 < today - maxDate bars) →
      get_historical_data st fetch sym per today =
        (get_data_from_db st.prices sym per today, st)) := by
  refine ⟨?_, ?_, ?_⟩
  · intro bars hdb hfresh
    simp [get_historical_data, hdb, hfresh]
  · intro fresh hf hne hstale
    subst hf
    cases hdb : get_data_from_db st.prices sym per today with
    | none => simp [get_historical_data, hdb, hne]
    | some bars =>
      have h1 : ¬(today - maxDate bars ≤ 1) := by
        have := hstale bars hdb
        omega
      simp [get_historical_data, hdb, h1, hne]
  · intro hf hstale
    have hcase : ∀ bars, get_data_from_db st.prices sym per today = some bars →
        ¬(today - maxDate bars ≤ 1) := by
      intro bars hdb
      have := hstale bars hdb
      omega
    rcases hf with rfl | rfl
    · cases hdb : get_data_from_db st.prices sym per today with
      | none => simp [get_historical_data, hdb]
      | some bars => simp [get_historical_data, hdb, hcase bars hdb]
    · cases hdb : get_data_from_db st.prices sym per today with
      | none => simp [get_historical_data, hdb]
      | some bars => simp [get_historical_data, hdb, hcase bars hdb]

/-- A fetched bar newer than anything stored. -/
def C8fresh : List Bar := [⟨11, 100, 100, 100, 103, 0⟩]

/-- Witness for C8 exercising all three branches at concrete states: the
fresh-store branch (i) on the day-8-to-10 scenario at today = 10, the
store-and-return branch (ii) and the fallback branch (iii) on an empty
store. -/
theorem C8_freshness_gate_witness :
    get_historical_data C3st none "A" "1mo" 10 = (some C3bars, C3st) ∧
    get_historical_data ⟨[], []⟩ (some C8fresh) "A" "1mo" 20 =
      (some C8fresh, { DbState.mk [] [] with
        prices := store_price_data_bulk [] "A" C8fresh }) ∧
    get_historical_data ⟨[], []⟩ none "A" "1mo" 20 =
      (get_data_from_db [] "A" "1mo" 20, ⟨[], []⟩) := by
  have hempty : ∀ bars, get_data_from_db ([] : List PriceDoc) "A" "1mo" 20 = some bars →
      1 < (20:ℤ) - maxDate bars := by
    intro bars hb
    simp [get_data_from_db] at hb
  refine ⟨?_, ?_, ?_⟩
  · exact (C8_freshness_gate C3st none "A" "1mo" 10).1 C3bars
      (by rw [show C3st.prices = C3prices from rfl]; exact scenario_db_read)
      (by rw [scenario_max_date]; norm_num)
  · exact (C8_freshness_gate ⟨[], []⟩ (some C8fresh) "A" "1mo" 20).2.1 C8fresh rfl
      (by simp [C8fresh]) hempty
  · exact (C8_freshness_gate ⟨[], []⟩ none "A" "1mo" 20).2.2 (Or.inl rfl) hempty
